import Mathlib

/-!
Verification of the crypto-tracker technical-analysis core.

Numeric values are modelled as rationals (`ℚ`); JavaScript `null` becomes
`Option`; JS truthiness of a nullable number (`if (x)`) is modelled
explicitly where the code relies on it.

Namespaces mirror the source:
- `TA`  : class `TechnicalAnalysis` in src/AdvancedTechnicalAnalysis.js
- `ATA` : class `AdvancedTechnicalAnalysis` in src/AdvancedTechnicalAnalysis.js
- `RE`  : class `RecommendationEngine` (simple Variant A engine)
- `ARE` : class `AdvancedRecommendationEngine` (weighted Variant B engine)
-/

namespace CryptoTracker

/-- JS `Math.round`: round half toward +infinity. -/
def jsRound (x : ℚ) : ℤ := ⌊x + 1/2⌋

/-- `Math.max(0, Math.min(100, s))`, the sub-score clamp used by every
category scorer of the advanced engine. -/
def clamp100 (s : ℚ) : ℚ := max 0 (min 100 s)

/-- Recommendation actions (both engines; the simple engine spells them
with a space, e.g. "STRONG BUY", same five values). -/
inductive Action where
  | STRONG_BUY | BUY | HOLD | SELL | STRONG_SELL
deriving DecidableEq, Repr

/-- Confidence labels. -/
inductive Confidence where
  | HIGH | MEDIUM | LOW
deriving DecidableEq, Repr

namespace ARE

/--
`AdvancedRecommendationEngine.determineActionFromScore(score, signals, warnings)`:

    if (score >= 75) { action = STRONG_BUY; confidence = HIGH }
    else if (score >= 60) { action = BUY; confidence = score >= 70 ? HIGH : MEDIUM }
    else if (score >= 40) { action = HOLD; confidence = MEDIUM }
    else if (score >= 25) { action = SELL; confidence = score <= 30 ? HIGH : MEDIUM }
    else { action = STRONG_SELL; confidence = HIGH }
    if (warnings.length > signals.length)
      confidence = confidence === HIGH ? MEDIUM : LOW
-/
def determineActionFromScore (score : ℚ) (signals warnings : List String) :
    Action × Confidence :=
  let base : Action × Confidence :=
    if score ≥ 75 then (Action.STRONG_BUY, Confidence.HIGH)
    else if score ≥ 60 then
      (Action.BUY, if score ≥ 70 then Confidence.HIGH else Confidence.MEDIUM)
    else if score ≥ 40 then (Action.HOLD, Confidence.MEDIUM)
    else if score ≥ 25 then
      (Action.SELL, if score ≤ 30 then Confidence.HIGH else Confidence.MEDIUM)
    else (Action.STRONG_SELL, Confidence.HIGH)
  if warnings.length > signals.length then
    (base.1, if base.2 = Confidence.HIGH then Confidence.MEDIUM else Confidence.LOW)
  else base

end ARE

/-- Spec-side downgrade rule: "HIGH becomes MEDIUM, anything else becomes LOW". -/
def downgradeOne (c : Confidence) : Confidence :=
  if c = Confidence.HIGH then Confidence.MEDIUM else Confidence.LOW

/-- Spec-side action mapping, written from the words of the claim: if s ≥ 75
then STRONG_BUY/HIGH; if 60 ≤ s < 75 then BUY with HIGH exactly when s ≥ 70
else MEDIUM; if 40 ≤ s < 60 then HOLD/MEDIUM; if 25 ≤ s < 40 then SELL with
HIGH exactly when s ≤ 30 else MEDIUM; if s < 25 then STRONG_SELL/HIGH; and
when the warning list is strictly longer than the signal list the confidence
is downgraded one level. -/
def specActionFromScore (s : ℚ) (signals warnings : List String) :
    Action × Confidence :=
  let base : Action × Confidence :=
    if 75 ≤ s then (Action.STRONG_BUY, Confidence.HIGH)
    else if 60 ≤ s ∧ s < 75 then
      (Action.BUY, if 70 ≤ s then Confidence.HIGH else Confidence.MEDIUM)
    else if 40 ≤ s ∧ s < 60 then (Action.HOLD, Confidence.MEDIUM)
    else if 25 ≤ s ∧ s < 40 then
      (Action.SELL, if s ≤ 30 then Confidence.HIGH else Confidence.MEDIUM)
    else if s < 25 then (Action.STRONG_SELL, Confidence.HIGH)
    else (Action.STRONG_SELL, Confidence.HIGH)
  if signals.length < warnings.length then (base.1, downgradeOne base.2) else base

/-- C2: for every final score and every pair of signal/warning lists, the
advanced engine's `determineActionFromScore` realizes exactly the threshold
table of the spec (≥75 → STRONG_BUY/HIGH; 60–75 → BUY, HIGH iff ≥70;
40–60 → HOLD/MEDIUM; 25–40 → SELL, HIGH iff ≤30; <25 → STRONG_SELL/HIGH),
with the confidence downgraded one level (HIGH→MEDIUM, else LOW) exactly when
there are strictly more warnings than signals. -/
theorem determineActionFromScore_matches_spec
    (s : ℚ) (signals warnings : List String) :
    ARE.determineActionFromScore s signals warnings =
      specActionFromScore s signals warnings := by
  unfold ARE.determineActionFromScore specActionFromScore downgradeOne
  split_ifs <;> simp_all

namespace ARE

/-- `indicators.stochastic` as consumed by the advanced scorer. -/
structure Stochastic where
  k : ℚ
  d : ℚ
deriving DecidableEq, Repr

/-- `indicators.macd` as produced by `TechnicalAnalysis.calculateMACD`. -/
structure MacdResult where
  macd : ℚ
  signal : ℚ
  histogram : ℚ
  bullish : Bool
  bearish : Bool
deriving DecidableEq, Repr

/-- `indicators.bollinger` fields consumed by the advanced scorer. -/
structure Bollinger where
  position : ℚ
  bandwidth : ℚ
deriving DecidableEq, Repr

/-- A detected chart pattern (`indicators.patterns[i]`). -/
structure Pattern where
  ptype : String
  bullish : Bool
  bearish : Bool
  confidence : ℚ
deriving DecidableEq, Repr

/-- `indicators.marketStructure.structure` values. -/
inductive StructureKind where
  | UPTREND | DOWNTREND | CONSOLIDATION
deriving DecidableEq, Repr

/-- `indicators.marketStructure`. -/
structure MarketStructure where
  structureKind : StructureKind
  confidence : ℚ
deriving DecidableEq, Repr

/-- Trend labels returned by `TechnicalAnalysis.analyzeTrend` (plus the
simple engine's labels, a subset together with UNKNOWN). -/
inductive Trend where
  | STRONG_BULLISH | BULLISH | SIDEWAYS | BEARISH | STRONG_BEARISH | UNKNOWN
deriving DecidableEq, Repr

/-- The indicator record consumed by
`AdvancedRecommendationEngine.calculateAdvancedScore`. -/
structure Indicators where
  trend : Trend
  trendStrength : ℚ
  rsi : ℚ
  rsi_fast : ℚ
  stochastic : Stochastic
  williams_r : ℚ
  currentPrice : ℚ
  sma7 : ℚ
  sma14 : ℚ
  sma21 : ℚ
  sma30 : ℚ
  ema12 : ℚ
  macd : MacdResult
  bollinger : Bollinger
  volumeRatio : ℚ
  patterns : List Pattern
  marketStructure : MarketStructure
deriving DecidableEq, Repr

/-- `currentData` snapshot passed alongside the indicators. -/
structure CurrentData where
  price : ℚ
  change_24h : ℚ
  market_cap : ℚ
  volume_24h : ℚ
deriving DecidableEq, Repr

/-- Output of one category sub-scorer: clamped score plus signal and
warning strings. -/
structure SubScore where
  score : ℚ
  signals : List String
  warnings : List String
deriving DecidableEq, Repr

/-- `scoreTrend(indicators)`. -/
def scoreTrend (ind : Indicators) : SubScore :=
  let base : ℚ × List String × List String :=
    match ind.trend with
    | Trend.STRONG_BULLISH => (90, ["Strong bullish trend confirmed"], [])
    | Trend.BULLISH => (75, ["Bullish trend detected"], [])
    | Trend.STRONG_BEARISH =>
        (10, ["Strong bearish trend confirmed"], ["Strong downtrend in progress"])
    | Trend.BEARISH => (25, ["Bearish trend detected"], ["Downtrend in progress"])
    | _ => (50, ["Sideways trend - consolidation phase"], [])
  let score := base.1
  let adj : ℚ × List String :=
    if ind.trendStrength > 70 then
      ((if score > 50 then score + 10 else score - 10), ["High trend strength"])
    else (score, [])
  { score := clamp100 adj.1, signals := base.2.1 ++ adj.2, warnings := base.2.2 }

/-- `scoreMomentum(indicators)`; each branch adjusts the running score and
appends its signal or warning string. -/
def scoreMomentum (ind : Indicators) : SubScore :=
  let s0 : ℚ := 50
  let r : ℚ × List String × List String :=
    if ind.rsi < 30 then (s0 + 20, ["RSI oversold"], [])
    else if ind.rsi > 70 then (s0 - 15, [], ["RSI overbought"])
    else if ind.rsi ≥ 45 ∧ ind.rsi ≤ 55 then (s0 + 5, ["RSI in neutral zone"], [])
    else (s0, [], [])
  let f : ℚ × List String × List String :=
    if ind.rsi_fast < 25 then (r.1 + 15, r.2.1 ++ ["Short-term oversold condition"], r.2.2)
    else if ind.rsi_fast > 75 then (r.1 - 10, r.2.1, r.2.2 ++ ["Short-term overbought condition"])
    else r
  let st : ℚ × List String × List String :=
    if ind.stochastic.k < 20 ∧ ind.stochastic.d < 20 then
      (f.1 + 15, f.2.1 ++ ["Stochastic oversold"], f.2.2)
    else if ind.stochastic.k > 80 ∧ ind.stochastic.d > 80 then
      (f.1 - 10, f.2.1, f.2.2 ++ ["Stochastic overbought"])
    else f
  let w : ℚ × List String × List String :=
    if ind.williams_r < -80 then (st.1 + 10, st.2.1 ++ ["Williams %R oversold"], st.2.2)
    else if ind.williams_r > -20 then (st.1 - 8, st.2.1, st.2.2 ++ ["Williams %R overbought"])
    else st
  { score := clamp100 w.1, signals := w.2.1, warnings := w.2.2 }

/-- `scoreMovingAverages(indicators)`: +5 per MA the price is above, −3 per
MA below, ±bonuses for all-above/all-below, MA alignment, and EMA12>SMA14. -/
def scoreMovingAverages (ind : Indicators) : SubScore :=
  let p := ind.currentPrice
  let mas : List ℚ := [ind.sma7, ind.sma14, ind.sma21, ind.sma30]
  let aboveCount := (mas.filter (fun ma => p > ma)).length
  let s1 : ℚ := 50 + (mas.foldl (fun acc ma => acc + (if p > ma then 5 else -3)) 0)
  let r2 : ℚ × List String :=
    if aboveCount = 4 then (s1 + 10, ["Price above all major moving averages"])
    else if aboveCount = 0 then (s1 - 15, ["Price below all major moving averages"])
    else (s1, [])
  let r3 : ℚ × List String :=
    if ind.sma7 > ind.sma14 ∧ ind.sma14 > ind.sma21 ∧ ind.sma21 > ind.sma30 then
      (r2.1 + 15, r2.2 ++ ["Bullish MA alignment"])
    else if ind.sma7 < ind.sma14 ∧ ind.sma14 < ind.sma21 ∧ ind.sma21 < ind.sma30 then
      (r2.1 - 15, r2.2 ++ ["Bearish MA alignment"])
    else r2
  let r4 : ℚ × List String :=
    if ind.ema12 > ind.sma14 then (r3.1 + 5, r3.2 ++ ["Short-term momentum positive"])
    else r3
  { score := clamp100 r4.1, signals := r4.2, warnings := [] }

/-- `scoreMacd(indicators)`. -/
def scoreMacd (ind : Indicators) : SubScore :=
  let r1 : ℚ × List String :=
    if ind.macd.bullish then (50 + 20, ["MACD bullish crossover"])
    else if ind.macd.bearish then (50 - 20, ["MACD bearish crossover"])
    else (50, [])
  let r2 : ℚ × List String :=
    if ind.macd.histogram > 0 then (r1.1 + 10, r1.2 ++ ["MACD histogram positive"])
    else (r1.1 - 10, r1.2)
  { score := clamp100 r2.1, signals := r2.2, warnings := [] }

/-- `scoreBollinger(indicators)`. -/
def scoreBollinger (ind : Indicators) : SubScore :=
  let r1 : ℚ × List String :=
    if ind.bollinger.position < 1/5 then (50 + 15, ["Price near lower Bollinger Band"])
    else if ind.bollinger.position > 4/5 then (50 - 10, ["Price near upper Bollinger Band"])
    else (50, [])
  let r2 : ℚ × List String :=
    if ind.bollinger.bandwidth < 10 then
      (r1.1 + 5, r1.2 ++ ["Bollinger Bands contracting - breakout pending"])
    else r1
  { score := clamp100 r2.1, signals := r2.2, warnings := [] }

/-- `scoreVolume(indicators)`. -/
def scoreVolume (ind : Indicators) : SubScore :=
  let r1 : ℚ × List String :=
    if ind.volumeRatio > 3/2 then (50 + 15, ["High volume confirmation"])
    else if ind.volumeRatio < 1/2 then (50 - 10, ["Low volume - weak signal"])
    else (50, [])
  { score := clamp100 r1.1, signals := r1.2, warnings := [] }

/-- `scorePatterns(indicators)`: fold over detected patterns, adding
`confidence * 0.3` for bullish ones and subtracting it for bearish ones. -/
def scorePatterns (ind : Indicators) : SubScore :=
  let r := ind.patterns.foldl
    (fun (acc : ℚ × List String × List String) pat =>
      if pat.bullish then
        (acc.1 + pat.confidence * (3/10), acc.2.1 ++ ["Bullish pattern"], acc.2.2)
      else if pat.bearish then
        (acc.1 - pat.confidence * (3/10), acc.2.1, acc.2.2 ++ ["Bearish pattern"])
      else acc)
    (50, [], [])
  { score := clamp100 r.1, signals := r.2.1, warnings := r.2.2 }

/-- `scoreMarketStructure(indicators)`. -/
def scoreMarketStructure (ind : Indicators) : SubScore :=
  let r : ℚ × List String :=
    match ind.marketStructure.structureKind with
    | StructureKind.UPTREND =>
        (50 + ind.marketStructure.confidence * (3/10), ["Market structure: Uptrend"])
    | StructureKind.DOWNTREND =>
        (50 - ind.marketStructure.confidence * (3/10), ["Market structure: Downtrend"])
    | _ => (50, [])
  { score := clamp100 r.1, signals := r.2, warnings := [] }

/-- The eight category weights of the advanced engine
(`AdvancedRecommendationEngine.weights`). -/
def wTrend : ℚ := 1/4
def wMomentum : ℚ := 1/5
def wMovingAverages : ℚ := 3/20
def wMacd : ℚ := 1/10
def wBollinger : ℚ := 2/25
def wVolume : ℚ := 7/100
def wPatterns : ℚ := 1/10
def wMarketStructure : ℚ := 1/20

/-- `totalScore` accumulated inside `calculateAdvancedScore`. -/
def totalScore (ind : Indicators) : ℚ :=
  (scoreTrend ind).score * wTrend
  + (scoreMomentum ind).score * wMomentum
  + (scoreMovingAverages ind).score * wMovingAverages
  + (scoreMacd ind).score * wMacd
  + (scoreBollinger ind).score * wBollinger
  + (scoreVolume ind).score * wVolume
  + (scorePatterns ind).score * wPatterns
  + (scoreMarketStructure ind).score * wMarketStructure

/-- `maxScore` accumulated inside `calculateAdvancedScore` (100 per category,
weighted). -/
def maxScore : ℚ :=
  100 * wTrend + 100 * wMomentum + 100 * wMovingAverages + 100 * wMacd
  + 100 * wBollinger + 100 * wVolume + 100 * wPatterns + 100 * wMarketStructure

/-- `finalScore = (totalScore / maxScore) * 100` of `calculateAdvancedScore`. -/
def finalScore (ind : Indicators) : ℚ := totalScore ind / maxScore * 100

/-- All signals of the eight sub-scorers, in accumulation order. -/
def allSignals (ind : Indicators) : List String :=
  (scoreTrend ind).signals ++ (scoreMomentum ind).signals
  ++ (scoreMovingAverages ind).signals ++ (scoreMacd ind).signals
  ++ (scoreBollinger ind).signals ++ (scoreVolume ind).signals
  ++ (scorePatterns ind).signals ++ (scoreMarketStructure ind).signals

/-- All warnings of the eight sub-scorers, in accumulation order (only
trend, momentum and patterns produce warnings). -/
def allWarnings (ind : Indicators) : List String :=
  (scoreTrend ind).warnings ++ (scoreMomentum ind).warnings
  ++ (scorePatterns ind).warnings

/-- Category breakdown with each sub-score rounded, as returned in the
`breakdown` field. -/
structure Breakdown where
  trend : ℤ
  momentum : ℤ
  movingAverages : ℤ
  macd : ℤ
  bollinger : ℤ
  volume : ℤ
  patterns : ℤ
  marketStructure : ℤ
deriving DecidableEq, Repr

/-- The full recommendation record returned by `calculateAdvancedScore`. -/
structure Recommendation where
  action : Action
  confidence : Confidence
  score : ℤ
  signals : List String
  warnings : List String
  breakdown : Breakdown
deriving DecidableEq, Repr

/-- `AdvancedRecommendationEngine.calculateAdvancedScore(indicators, currentData)`:
weighted sum of the eight clamped category scores, scaled by the weighted
maximum, mapped to an action/confidence and packaged with the top signals,
warnings and the rounded breakdown. -/
def calculateAdvancedScore (ind : Indicators) (currentData : CurrentData) :
    Recommendation :=
  let fs := finalScore ind
  let signals := allSignals ind
  let warnings := allWarnings ind
  let ac := determineActionFromScore fs signals warnings
  { action := ac.1
    confidence := ac.2
    score := jsRound fs
    signals := signals.take 8
    warnings := warnings.take 4
    breakdown :=
      { trend := jsRound (scoreTrend ind).score
        momentum := jsRound (scoreMomentum ind).score
        movingAverages := jsRound (scoreMovingAverages ind).score
        macd := jsRound (scoreMacd ind).score
        bollinger := jsRound (scoreBollinger ind).score
        volume := jsRound (scoreVolume ind).score
        patterns := jsRound (scorePatterns ind).score
        marketStructure := jsRound (scoreMarketStructure ind).score } }

end ARE

lemma clamp100_nonneg (s : ℚ) : 0 ≤ clamp100 s := le_max_left 0 _

lemma clamp100_le (s : ℚ) : clamp100 s ≤ 100 :=
  max_le (by norm_num) (min_le_left 100 s)

lemma scoreTrend_mem (ind : ARE.Indicators) :
    0 ≤ (ARE.scoreTrend ind).score ∧ (ARE.scoreTrend ind).score ≤ 100 :=
  ⟨clamp100_nonneg _, clamp100_le _⟩

lemma scoreMomentum_mem (ind : ARE.Indicators) :
    0 ≤ (ARE.scoreMomentum ind).score ∧ (ARE.scoreMomentum ind).score ≤ 100 :=
  ⟨clamp100_nonneg _, clamp100_le _⟩

lemma scoreMovingAverages_mem (ind : ARE.Indicators) :
    0 ≤ (ARE.scoreMovingAverages ind).score ∧ (ARE.scoreMovingAverages ind).score ≤ 100 :=
  ⟨clamp100_nonneg _, clamp100_le _⟩

lemma scoreMacd_mem (ind : ARE.Indicators) :
    0 ≤ (ARE.scoreMacd ind).score ∧ (ARE.scoreMacd ind).score ≤ 100 :=
  ⟨clamp100_nonneg _, clamp100_le _⟩

lemma scoreBollinger_mem (ind : ARE.Indicators) :
    0 ≤ (ARE.scoreBollinger ind).score ∧ (ARE.scoreBollinger ind).score ≤ 100 :=
  ⟨clamp100_nonneg _, clamp100_le _⟩

lemma scoreVolume_mem (ind : ARE.Indicators) :
    0 ≤ (ARE.scoreVolume ind).score ∧ (ARE.scoreVolume ind).score ≤ 100 :=
  ⟨clamp100_nonneg _, clamp100_le _⟩

lemma scorePatterns_mem (ind : ARE.Indicators) :
    0 ≤ (ARE.scorePatterns ind).score ∧ (ARE.scorePatterns ind).score ≤ 100 :=
  ⟨clamp100_nonneg _, clamp100_le _⟩

lemma scoreMarketStructure_mem (ind : ARE.Indicators) :
    0 ≤ (ARE.scoreMarketStructure ind).score ∧ (ARE.scoreMarketStructure ind).score ≤ 100 :=
  ⟨clamp100_nonneg _, clamp100_le _⟩

/-- The eight weights sum to exactly 1. -/
lemma weights_sum_eq_one :
    ARE.wTrend + ARE.wMomentum + ARE.wMovingAverages + ARE.wMacd
      + ARE.wBollinger + ARE.wVolume + ARE.wPatterns + ARE.wMarketStructure = 1 := by
  norm_num [ARE.wTrend, ARE.wMomentum, ARE.wMovingAverages, ARE.wMacd,
    ARE.wBollinger, ARE.wVolume, ARE.wPatterns, ARE.wMarketStructure]

/-- The weighted maximum is exactly 100. -/
lemma maxScore_eq : ARE.maxScore = 100 := by
  norm_num [ARE.maxScore, ARE.wTrend, ARE.wMomentum, ARE.wMovingAverages,
    ARE.wMacd, ARE.wBollinger, ARE.wVolume, ARE.wPatterns, ARE.wMarketStructure]

lemma totalScore_bounds (ind : ARE.Indicators) :
    0 ≤ ARE.totalScore ind ∧ ARE.totalScore ind ≤ 100 := by
  obtain ⟨h1, h1u⟩ := scoreTrend_mem ind
  obtain ⟨h2, h2u⟩ := scoreMomentum_mem ind
  obtain ⟨h3, h3u⟩ := scoreMovingAverages_mem ind
  obtain ⟨h4, h4u⟩ := scoreMacd_mem ind
  obtain ⟨h5, h5u⟩ := scoreBollinger_mem ind
  obtain ⟨h6, h6u⟩ := scoreVolume_mem ind
  obtain ⟨h7, h7u⟩ := scorePatterns_mem ind
  obtain ⟨h8, h8u⟩ := scoreMarketStructure_mem ind
  unfold ARE.totalScore
  unfold ARE.wTrend ARE.wMomentum ARE.wMovingAverages ARE.wMacd
    ARE.wBollinger ARE.wVolume ARE.wPatterns ARE.wMarketStructure
  constructor <;> nlinarith

lemma finalScore_eq_totalScore (ind : ARE.Indicators) :
    ARE.finalScore ind = ARE.totalScore ind := by
  unfold ARE.finalScore
  rw [maxScore_eq]
  field_simp

lemma jsRound_bounds {x : ℚ} (h0 : 0 ≤ x) (h1 : x ≤ 100) :
    0 ≤ jsRound x ∧ jsRound x ≤ 100 := by
  unfold jsRound
  constructor
  · exact Int.le_floor.mpr (by push_cast; linarith)
  · have : (⌊x + 1/2⌋ : ℤ) < 101 := Int.floor_lt.mpr (by push_cast; linarith)
    omega

/-- C1: for every indicator set and snapshot, the advanced scorer's eight
weights sum to exactly 1 (hence within ±1e-9 of 1), every category sub-score
is clamped to [0,100], the final score equals the weighted sub-score sum
divided by the weighted sum of 100s and scaled to 0–100 (which collapses to
the plain weighted sum), and both the rational final score and the rounded
`score` field lie in [0,100]. -/
theorem calculateAdvancedScore_in_range (ind : ARE.Indicators) (cur : ARE.CurrentData) :
    (ARE.wTrend + ARE.wMomentum + ARE.wMovingAverages + ARE.wMacd
        + ARE.wBollinger + ARE.wVolume + ARE.wPatterns + ARE.wMarketStructure = 1
      ∧ |ARE.wTrend + ARE.wMomentum + ARE.wMovingAverages + ARE.wMacd
        + ARE.wBollinger + ARE.wVolume + ARE.wPatterns + ARE.wMarketStructure - 1|
          ≤ 1/1000000000)
    ∧ (0 ≤ (ARE.scoreTrend ind).score ∧ (ARE.scoreTrend ind).score ≤ 100)
    ∧ (0 ≤ (ARE.scoreMomentum ind).score ∧ (ARE.scoreMomentum ind).score ≤ 100)
    ∧ (0 ≤ (ARE.scoreMovingAverages ind).score ∧ (ARE.scoreMovingAverages ind).score ≤ 100)
    ∧ (0 ≤ (ARE.scoreMacd ind).score ∧ (ARE.scoreMacd ind).score ≤ 100)
    ∧ (0 ≤ (ARE.scoreBollinger ind).score ∧ (ARE.scoreBollinger ind).score ≤ 100)
    ∧ (0 ≤ (ARE.scoreVolume ind).score ∧ (ARE.scoreVolume ind).score ≤ 100)
    ∧ (0 ≤ (ARE.scorePatterns ind).score ∧ (ARE.scorePatterns ind).score ≤ 100)
    ∧ (0 ≤ (ARE.scoreMarketStructure ind).score ∧ (ARE.scoreMarketStructure ind).score ≤ 100)
    ∧ ARE.finalScore ind = ARE.totalScore ind / ARE.maxScore * 100
    ∧ (0 ≤ ARE.finalScore ind ∧ ARE.finalScore ind ≤ 100)
    ∧ (0 ≤ (ARE.calculateAdvancedScore ind cur).score
        ∧ (ARE.calculateAdvancedScore ind cur).score ≤ 100) := by
  have hw := weights_sum_eq_one
  have htot := totalScore_bounds ind
  have hfin : 0 ≤ ARE.finalScore ind ∧ ARE.finalScore ind ≤ 100 := by
    rw [finalScore_eq_totalScore]; exact htot
  refine ⟨⟨hw, by rw [hw]; norm_num⟩, scoreTrend_mem ind, scoreMomentum_mem ind,
    scoreMovingAverages_mem ind, scoreMacd_mem ind, scoreBollinger_mem ind,
    scoreVolume_mem ind, scorePatterns_mem ind, scoreMarketStructure_mem ind,
    rfl, hfin, ?_⟩
  exact jsRound_bounds hfin.1 hfin.2

/-- C9: the advanced scorer is deterministic — equal indicator sets and
equal snapshots produce identical recommendations (the embedding consumes no
source of randomness, unlike the fallback history synthesizer, which takes an
explicit stream of random draws). -/
theorem calculateAdvancedScore_deterministic
    (ind₁ ind₂ : ARE.Indicators) (cur₁ cur₂ : ARE.CurrentData)
    (hind : ind₁ = ind₂) (hcur : cur₁ = cur₂) :
    ARE.calculateAdvancedScore ind₁ cur₁ = ARE.calculateAdvancedScore ind₂ cur₂ := by
  rw [hind, hcur]

/-- A concrete indicator record used to instantiate hypothesis-bearing
theorems. -/
def sampleIndicators : ARE.Indicators :=
  { trend := ARE.Trend.BULLISH
    trendStrength := 60
    rsi := 50
    rsi_fast := 50
    stochastic := { k := 50, d := 50 }
    williams_r := -50
    currentPrice := 10
    sma7 := 9
    sma14 := 8
    sma21 := 7
    sma30 := 6
    ema12 := 9
    macd := { macd := 1, signal := 0, histogram := 1, bullish := true, bearish := false }
    bollinger := { position := 1/2, bandwidth := 20 }
    volumeRatio := 1
    patterns := []
    marketStructure := { structureKind := ARE.StructureKind.UPTREND, confidence := 70 } }

/-- A concrete snapshot used to instantiate hypothesis-bearing theorems. -/
def sampleCurrent : ARE.CurrentData :=
  { price := 10, change_24h := 2, market_cap := 1000, volume_24h := 100 }

/-- Witness for C9 at a concrete indicator set and snapshot. -/
theorem calculateAdvancedScore_deterministic_witness :
    ARE.calculateAdvancedScore sampleIndicators sampleCurrent =
      ARE.calculateAdvancedScore sampleIndicators sampleCurrent :=
  calculateAdvancedScore_deterministic sampleIndicators sampleIndicators
    sampleCurrent sampleCurrent rfl rfl

/-- Sum of the positive deltas of an RSI window
(`if (change > 0) gains += change`). -/
def gainsOf (deltas : List ℚ) : ℚ :=
  (deltas.map (fun c => if 0 < c then c else 0)).sum

/-- Sum of the absolute negative deltas of an RSI window
(`else losses -= change` / `losses += Math.abs(change)`). -/
def lossesOf (deltas : List ℚ) : ℚ :=
  (deltas.map (fun c => if 0 < c then 0 else -c)).sum

/-- The shared RSI core: avgGain = gains/p, avgLoss = losses/p; 100 when
avgLoss = 0, else 100 − 100/(1 + avgGain/avgLoss). -/
def rsiFromWindow (deltas : List ℚ) (period : ℕ) : ℚ :=
  if lossesOf deltas / (period : ℚ) = 0 then 100
  else 100 - 100 / (1 + (gainsOf deltas / (period : ℚ)) / (lossesOf deltas / (period : ℚ)))

namespace TA

/-- `TechnicalAnalysis.calculateSMA(prices, period)`:
`if (prices.length < period) return prices[prices.length-1] || 0;` else the
mean of the last `period` elements (`prices.slice(-period)`).
The JS division is total here because the else branch implies
`period ≤ prices.length`; `period = 0` (a NaN in JS) is excluded by the
`0 < period` hypotheses of the theorems below. -/
def calculateSMA (prices : List ℚ) (period : ℕ) : ℚ :=
  if prices.length < period then (prices.getLast?).getD 0
  else (prices.drop (prices.length - period)).sum / (period : ℚ)

/-- `TechnicalAnalysis.calculateEMA(prices, period)`: default to the last
price (or 0) when too short; else seed with
`calculateSMA(prices.slice(0, period), period)` and iterate
`ema = prices[i]*mult + ema*(1-mult)` for `i = period .. length-1` with
`mult = 2/(period+1)`. -/
def calculateEMA (prices : List ℚ) (period : ℕ) : ℚ :=
  if prices.length < period then (prices.getLast?).getD 0
  else
    (prices.drop period).foldl
      (fun ema p => p * (2 / ((period : ℚ) + 1)) + ema * (1 - 2 / ((period : ℚ) + 1)))
      (calculateSMA (prices.take period) period)

/-- The trailing deltas read by `TechnicalAnalysis.calculateRSI`'s loop
`for (i = 1; i <= period; i++) change = prices[len-i] - prices[len-i-1]`
(here `j = i - 1`). -/
def rsiDeltas (prices : List ℚ) (period : ℕ) : List ℚ :=
  (List.range period).map (fun j =>
    prices.getD (prices.length - 1 - j) 0 - prices.getD (prices.length - 2 - j) 0)

/-- `TechnicalAnalysis.calculateRSI(prices, period = 14)`: neutral 50 when
`prices.length < period + 1`, else the trailing-window RSI. -/
def calculateRSI (prices : List ℚ) (period : ℕ) : ℚ :=
  if prices.length < period + 1 then 50
  else rsiFromWindow (rsiDeltas prices period) period

/-- `TechnicalAnalysis.calculateMACD(prices)`: scalar EMA(12) − EMA(26),
signal = EMA(9) of the macd history rebuilt over prefixes
`prices.slice(0, i+1)` for `i = 26 .. length-1`, histogram = macd − signal,
and the bullish/bearish crossover flags. -/
def calculateMACD (prices : List ℚ) : ARE.MacdResult :=
  let ema12 := calculateEMA prices 12
  let ema26 := calculateEMA prices 26
  let macdLine := ema12 - ema26
  let macdHistory := (List.range (prices.length - 26)).map (fun k =>
    let slice := prices.take (26 + k + 1)
    calculateEMA slice 12 - calculateEMA slice 26)
  let signalLine := calculateEMA macdHistory 9
  let histogram := macdLine - signalLine
  { macd := macdLine
    signal := signalLine
    histogram := histogram
    bullish := decide (macdLine > signalLine) && decide (histogram > 0)
    bearish := decide (macdLine < signalLine) && decide (histogram < 0) }

/-- `TechnicalAnalysis.analyzeTrend(prices)`: UNKNOWN under 10 points, else
classify from the most recent SMA(7)/SMA(14)/SMA(30) and the last price. -/
def analyzeTrend (prices : List ℚ) : ARE.Trend :=
  if prices.length < 10 then ARE.Trend.UNKNOWN
  else
    let sma7 := calculateSMA prices 7
    let sma14 := calculateSMA prices 14
    let sma30 := calculateSMA prices 30
    let currentPrice := (prices.getLast?).getD 0
    if currentPrice > sma7 ∧ sma7 > sma14 ∧ sma14 > sma30 then ARE.Trend.STRONG_BULLISH
    else if currentPrice < sma7 ∧ sma7 < sma14 ∧ sma14 < sma30 then ARE.Trend.STRONG_BEARISH
    else if currentPrice > sma14 ∧ sma14 > sma30 then ARE.Trend.BULLISH
    else if currentPrice < sma14 ∧ sma14 < sma30 then ARE.Trend.BEARISH
    else ARE.Trend.SIDEWAYS

end TA

/-- Spec-side trend classification, written from the words of the claim:
STRONG_BULLISH exactly when price > sma7 > sma14 > sma30, STRONG_BEARISH
when reversed, otherwise BULLISH when price > sma14 > sma30, BEARISH when
price < sma14 < sma30, and SIDEWAYS in all remaining cases. -/
def specTrendOf (p s7 s14 s30 : ℚ) : ARE.Trend :=
  if p > s7 ∧ s7 > s14 ∧ s14 > s30 then ARE.Trend.STRONG_BULLISH
  else if p < s7 ∧ s7 < s14 ∧ s14 < s30 then ARE.Trend.STRONG_BEARISH
  else if p > s14 ∧ s14 > s30 then ARE.Trend.BULLISH
  else if p < s14 ∧ s14 < s30 then ARE.Trend.BEARISH
  else ARE.Trend.SIDEWAYS

lemma specTrendOf_eq_strong_bullish_iff (p a b c : ℚ) :
    specTrendOf p a b c = ARE.Trend.STRONG_BULLISH ↔ (p > a ∧ a > b ∧ b > c) := by
  unfold specTrendOf
  split_ifs <;> simp_all

lemma specTrendOf_eq_strong_bearish_iff (p a b c : ℚ) :
    specTrendOf p a b c = ARE.Trend.STRONG_BEARISH ↔ (p < a ∧ a < b ∧ b < c) := by
  unfold specTrendOf
  split_ifs with h1 h2 h3 h4 <;> simp_all
  obtain ⟨u, v, w⟩ := h1
  intros
  linarith

/-- C8: trend classification returns UNKNOWN on fewer than 10 points, and on
10 or more points equals the spec classification of the most recent
SMA(7)/SMA(14)/SMA(30) and last price; in particular STRONG_BULLISH holds
exactly on the full bullish chain and STRONG_BEARISH exactly on the reversed
chain. -/
theorem analyzeTrend_matches_spec (prices : List ℚ) :
    (prices.length < 10 → TA.analyzeTrend prices = ARE.Trend.UNKNOWN)
    ∧ (10 ≤ prices.length →
        TA.analyzeTrend prices =
          specTrendOf ((prices.getLast?).getD 0) (TA.calculateSMA prices 7)
            (TA.calculateSMA prices 14) (TA.calculateSMA prices 30)
        ∧ (TA.analyzeTrend prices = ARE.Trend.STRONG_BULLISH ↔
            (prices.getLast?).getD 0 > TA.calculateSMA prices 7
            ∧ TA.calculateSMA prices 7 > TA.calculateSMA prices 14
            ∧ TA.calculateSMA prices 14 > TA.calculateSMA prices 30)
        ∧ (TA.analyzeTrend prices = ARE.Trend.STRONG_BEARISH ↔
            (prices.getLast?).getD 0 < TA.calculateSMA prices 7
            ∧ TA.calculateSMA prices 7 < TA.calculateSMA prices 14
            ∧ TA.calculateSMA prices 14 < TA.calculateSMA prices 30)) := by
  constructor
  · intro h
    unfold TA.analyzeTrend
    simp [h]
  · intro h
    have hnot : ¬ prices.length < 10 := not_lt.mpr h
    have heq : TA.analyzeTrend prices =
        specTrendOf ((prices.getLast?).getD 0) (TA.calculateSMA prices 7)
          (TA.calculateSMA prices 14) (TA.calculateSMA prices 30) := by
      unfold TA.analyzeTrend specTrendOf
      simp [hnot]
    refine ⟨heq, ?_, ?_⟩
    · rw [heq, specTrendOf_eq_strong_bullish_iff]
    · rw [heq, specTrendOf_eq_strong_bearish_iff]

/-- Witness for C8: a 1-point series is UNKNOWN; thirty increasing prices
classify as STRONG_BULLISH. -/
theorem analyzeTrend_matches_spec_witness :
    TA.analyzeTrend [(1 : ℚ)] = ARE.Trend.UNKNOWN
    ∧ TA.analyzeTrend
        [1, 2, 3, 4, 5, 6, 7, 8, 9, 10, 11, 12, 13, 14, 15, 16, 17, 18, 19, 20,
          21, 22, 23, 24, 25, 26, 27, 28, 29, (30 : ℚ)] = ARE.Trend.STRONG_BULLISH :=
  ⟨(analyzeTrend_matches_spec [(1 : ℚ)]).1 (by norm_num),
    ((analyzeTrend_matches_spec _).2 (by norm_num)).2.1.mpr (by norm_num [TA.calculateSMA])⟩

/-- C10: the MACD bullish and bearish flags are never both set — bullish
requires macd > signal while bearish requires macd < signal. -/
theorem calculateMACD_flags_exclusive (prices : List ℚ) :
    ((TA.calculateMACD prices).bullish && (TA.calculateMACD prices).bearish) = false := by
  unfold TA.calculateMACD
  simp only [Bool.and_eq_false_iff, Bool.and_eq_true, decide_eq_true_eq]
  by_cases h : TA.calculateEMA prices 12 - TA.calculateEMA prices 26 >
      TA.calculateEMA ((List.range (prices.length - 26)).map (fun k =>
        TA.calculateEMA (prices.take (26 + k + 1)) 12
          - TA.calculateEMA (prices.take (26 + k + 1)) 26)) 9
  · right
    simp only [Bool.and_eq_false_iff, decide_eq_false_iff_not, not_lt]
    left
    exact le_of_lt h
  · left
    simp only [Bool.and_eq_false_iff, decide_eq_false_iff_not, not_lt]
    left
    exact not_lt.mp h

namespace RE

/-- `RecommendationEngine.calculateSMA(prices, period)`: returns `null` (not
the last price) when the series is shorter than the period, else the mean of
the last `period` elements. -/
def calculateSMA (prices : List ℚ) (period : ℕ) : Option ℚ :=
  if prices.length < period then none
  else some ((prices.drop (prices.length - period)).sum / (period : ℚ))

/-- The trailing deltas read by `RecommendationEngine.calculateRSI`'s loop
`for (i = prices.length - period; i < prices.length; i++)
   change = prices[i] - prices[i-1]`
(here `i = prices.length - period + j`). -/
def rsiDeltas (prices : List ℚ) (period : ℕ) : List ℚ :=
  (List.range period).map (fun j =>
    prices.getD (prices.length - period + j) 0
      - prices.getD (prices.length - period + j - 1) 0)

/-- `RecommendationEngine.calculateRSI(prices, period = 14)`: returns `null`
(not the neutral 50) when `prices.length < period + 1`, else the
trailing-window RSI. -/
def calculateRSI (prices : List ℚ) (period : ℕ) : Option ℚ :=
  if prices.length < period + 1 then none
  else some (rsiFromWindow (rsiDeltas prices period) period)

end RE

lemma gainsOf_nonneg (deltas : List ℚ) : 0 ≤ gainsOf deltas := by
  refine List.sum_nonneg ?_
  intro x hx
  simp only [List.mem_map] at hx
  obtain ⟨c, -, rfl⟩ := hx
  split_ifs with h
  · exact le_of_lt h
  · exact le_refl 0

lemma lossesOf_nonneg (deltas : List ℚ) : 0 ≤ lossesOf deltas := by
  refine List.sum_nonneg ?_
  intro x hx
  simp only [List.mem_map] at hx
  obtain ⟨c, -, rfl⟩ := hx
  split_ifs with h
  · exact le_refl 0
  · linarith [not_lt.mp h]

lemma lossesOf_eq_zero {deltas : List ℚ} (h : ∀ c ∈ deltas, 0 < c) :
    lossesOf deltas = 0 := by
  refine List.sum_eq_zero ?_
  intro x hx
  simp only [List.mem_map] at hx
  obtain ⟨c, hc, rfl⟩ := hx
  simp [h c hc]

lemma rsiFromWindow_mem (deltas : List ℚ) (period : ℕ) :
    0 ≤ rsiFromWindow deltas period ∧ rsiFromWindow deltas period ≤ 100 := by
  unfold rsiFromWindow
  split_ifs with h
  · norm_num
  · have hlosses : 0 ≤ lossesOf deltas / (period : ℚ) := by
      rcases eq_or_lt_of_le (lossesOf_nonneg deltas) with heq | hlt
      · rw [← heq]; simp
      · positivity
    have hloss_pos : 0 < lossesOf deltas / (period : ℚ) := lt_of_le_of_ne hlosses (Ne.symm h)
    have hgain : 0 ≤ gainsOf deltas / (period : ℚ) := by
      rcases Nat.eq_zero_or_pos period with hz | hz
      · simp [hz]
      · exact div_nonneg (gainsOf_nonneg deltas) (by positivity)
    have hrs : 0 ≤ gainsOf deltas / (period : ℚ) / (lossesOf deltas / (period : ℚ)) :=
      div_nonneg hgain (le_of_lt hloss_pos)
    have h1 : (1 : ℚ) ≤ 1 + gainsOf deltas / (period : ℚ) / (lossesOf deltas / (period : ℚ)) := by
      linarith
    have hdiv_pos : 0 < (100 : ℚ) / (1 + gainsOf deltas / (period : ℚ) / (lossesOf deltas / (period : ℚ))) :=
      div_pos (by norm_num) (by linarith)
    have hdiv_le : (100 : ℚ) / (1 + gainsOf deltas / (period : ℚ) / (lossesOf deltas / (period : ℚ))) ≤ 100 :=
      div_le_self (by norm_num) h1
    constructor <;> linarith

lemma rsiFromWindow_eq_100 {deltas : List ℚ} (h : ∀ c ∈ deltas, 0 < c) (period : ℕ) :
    rsiFromWindow deltas period = 100 := by
  unfold rsiFromWindow
  rw [lossesOf_eq_zero h]
  simp

/-- C3 counterexample: on a 1-point series (insufficient data) the simple
engine's `calculateRSI` returns `null`, not the neutral default 50 the claim
states. -/
theorem claim_C3_counterexample :
    RE.calculateRSI [(1 : ℚ)] 14 = none
    ∧ decide (RE.calculateRSI [(1 : ℚ)] 14 = some 50) = false := by
  constructor
  · rfl
  · decide

/-- C3 (amended): both RSI variants compute the trailing-window
gains/losses RSI and stay in [0,100], returning 100 when every trailing
delta is a gain; on insufficient data (< period+1 points) the
`TechnicalAnalysis` variant returns the neutral 50 while the
`RecommendationEngine` variant returns `null`. -/
theorem calculateRSI_amended (prices : List ℚ) (period : ℕ) (hp : 0 < period) :
    (prices.length < period + 1 →
      TA.calculateRSI prices period = 50 ∧ RE.calculateRSI prices period = none)
    ∧ (0 ≤ TA.calculateRSI prices period ∧ TA.calculateRSI prices period ≤ 100)
    ∧ (∀ x : ℚ, RE.calculateRSI prices period = some x → 0 ≤ x ∧ x ≤ 100)
    ∧ (period + 1 ≤ prices.length →
        (∀ c ∈ TA.rsiDeltas prices period, 0 < c) → TA.calculateRSI prices period = 100)
    ∧ (period + 1 ≤ prices.length →
        (∀ c ∈ RE.rsiDeltas prices period, 0 < c) →
          RE.calculateRSI prices period = some 100) := by
  refine ⟨?_, ?_, ?_, ?_, ?_⟩
  · intro h
    unfold TA.calculateRSI RE.calculateRSI
    simp [h]
  · unfold TA.calculateRSI
    split_ifs with h
    · norm_num
    · exact rsiFromWindow_mem _ _
  · intro x hx
    unfold RE.calculateRSI at hx
    split_ifs at hx with h
    · obtain rfl : rsiFromWindow (RE.rsiDeltas prices period) period = x :=
        Option.some_injective _ hx
      exact rsiFromWindow_mem _ _
  · intro h hall
    unfold TA.calculateRSI
    rw [if_neg (by omega)]
    exact rsiFromWindow_eq_100 hall period
  · intro h hall
    unfold RE.calculateRSI
    rw [if_neg (by omega)]
    rw [rsiFromWindow_eq_100 hall period]

/-- Witness for C3 (amended): a 1-point series yields 50 / `null` at period
14, and a strictly increasing 2-point series at period 1 yields RSI 100 in
both variants. -/
theorem calculateRSI_amended_witness :
    (TA.calculateRSI [(1 : ℚ)] 14 = 50 ∧ RE.calculateRSI [(1 : ℚ)] 14 = none)
    ∧ TA.calculateRSI [1, (2 : ℚ)] 1 = 100
    ∧ RE.calculateRSI [1, (2 : ℚ)] 1 = some 100 :=
  ⟨(calculateRSI_amended [(1 : ℚ)] 14 (by norm_num)).1 (by norm_num),
    (calculateRSI_amended [1, (2 : ℚ)] 1 (by norm_num)).2.2.2.1 (by norm_num)
      (by norm_num [TA.rsiDeltas, List.range_succ]),
    (calculateRSI_amended [1, (2 : ℚ)] 1 (by norm_num)).2.2.2.2 (by norm_num)
      (by norm_num [RE.rsiDeltas, List.range_succ])⟩

/-- C6 counterexample: on a 1-point series and period 2 the simple engine's
`calculateSMA` returns `null`, not the last element the claim states. -/
theorem claim_C6_counterexample :
    RE.calculateSMA [(1 : ℚ)] 2 = none
    ∧ decide (RE.calculateSMA [(1 : ℚ)] 2 = some 1) = false := by
  constructor
  · rfl
  · decide

/-- C6 (amended): when the series is shorter than the period the
`TechnicalAnalysis` SMA returns the last element (0 when empty) while the
`RecommendationEngine` SMA returns `null`; with enough data both return the
arithmetic mean of the last `period` elements (a window of exactly `period`
elements). -/
theorem calculateSMA_amended (prices : List ℚ) (period : ℕ) (hp : 0 < period) :
    (prices.length < period → TA.calculateSMA prices period = (prices.getLast?).getD 0)
    ∧ (prices.length < period → RE.calculateSMA prices period = none)
    ∧ (period ≤ prices.length →
        (prices.drop (prices.length - period)).length = period
        ∧ TA.calculateSMA prices period =
            (prices.drop (prices.length - period)).sum
              / ((prices.drop (prices.length - period)).length : ℚ)
        ∧ RE.calculateSMA prices period = some (TA.calculateSMA prices period)) := by
  refine ⟨?_, ?_, ?_⟩
  · intro h
    unfold TA.calculateSMA
    simp [h]
  · intro h
    unfold RE.calculateSMA
    simp [h]
  · intro h
    have hlen : (prices.drop (prices.length - period)).length = period := by
      rw [List.length_drop]
      omega
    refine ⟨hlen, ?_, ?_⟩
    · unfold TA.calculateSMA
      rw [if_neg (by omega), hlen]
    · unfold TA.calculateSMA RE.calculateSMA
      rw [if_neg (by omega), if_neg (by omega)]

/-- Witness for C6 (amended): period 2 on the short series [1] gives last
element 1 / `null`; on [1, 2, 3] both variants give (2+3)/2 = 5/2. -/
theorem calculateSMA_amended_witness :
    TA.calculateSMA [(1 : ℚ)] 2 = 1
    ∧ RE.calculateSMA [(1 : ℚ)] 2 = none
    ∧ TA.calculateSMA [1, 2, (3 : ℚ)] 2 = 5/2
    ∧ RE.calculateSMA [1, 2, (3 : ℚ)] 2 = some (TA.calculateSMA [1, 2, (3 : ℚ)] 2) := by
  refine ⟨?_, ?_, ?_, ?_⟩
  · have := (calculateSMA_amended [(1 : ℚ)] 2 (by norm_num)).1 (by norm_num)
    simpa using this
  · exact (calculateSMA_amended [(1 : ℚ)] 2 (by norm_num)).2.1 (by norm_num)
  · have := ((calculateSMA_amended [1, 2, (3 : ℚ)] 2 (by norm_num)).2.2 (by norm_num)).2.1
    rw [this]
    norm_num
  · exact ((calculateSMA_amended [1, 2, (3 : ℚ)] 2 (by norm_num)).2.2 (by norm_num)).2.2

namespace ATA

/-- `AdvancedTechnicalAnalysis.calculateEMA(prices, period)` (the series
version): returns `[]` when the series is shorter than the period; else
seeds `ema[0] = prices[0]` and pushes
`prices[i]*mult + ema[i-1]*(1-mult)` for `i = 1 .. length-1`,
with `mult = 2/(period+1)`, returning the whole EMA series. -/
def calculateEMA (prices : List ℚ) (period : ℕ) : List ℚ :=
  if prices.length < period then []
  else
    match prices with
    | [] => []
    | p0 :: rest =>
        List.scanl
          (fun ema p => p * (2 / ((period : ℚ) + 1)) + ema * (1 - 2 / ((period : ℚ) + 1)))
          p0 rest

end ATA

/-- Spec-side EMA, written from the words of the claim: seed with the SMA of
the first `period` elements, then iterate forward over the remaining
elements with multiplier 2/(period+1) via
`ema[i] = price[i]*mult + ema[i-1]*(1-mult)`; a series with fewer than
`period` elements returns the last price (0 when empty) as a default. -/
def emaSpec (prices : List ℚ) (period : ℕ) : ℚ :=
  if prices.length < period then (prices.getLast?).getD 0
  else
    (prices.drop period).foldl
      (fun ema p => p * (2 / ((period : ℚ) + 1)) + ema * (1 - 2 / ((period : ℚ) + 1)))
      ((prices.take period).sum / (period : ℚ))

/-- C5 counterexample: the series-returning
`AdvancedTechnicalAnalysis.calculateEMA` is NOT the claimed algorithm — on
[1,2,3] with period 2 its final value is 23/9, while seeding with the SMA of
the first 2 elements gives 5/2; and on a too-short series it returns `[]`,
not the last price. -/
theorem claim_C5_counterexample :
    (ATA.calculateEMA [1, 2, (3 : ℚ)] 2).getLast? = some (23/9)
    ∧ emaSpec [1, 2, (3 : ℚ)] 2 = 5/2
    ∧ decide ((ATA.calculateEMA [1, 2, (3 : ℚ)] 2).getLast?
        = some (emaSpec [1, 2, (3 : ℚ)] 2)) = false
    ∧ ATA.calculateEMA [(5 : ℚ)] 2 = [] := by
  have h1 : ATA.calculateEMA [1, 2, (3 : ℚ)] 2 = [1, 5/3, 23/9] := by
    unfold ATA.calculateEMA
    norm_num [List.scanl]
  have h2 : emaSpec [1, 2, (3 : ℚ)] 2 = 5/2 := by
    unfold emaSpec
    norm_num
  refine ⟨by rw [h1]; rfl, h2, ?_, by rfl⟩
  rw [decide_eq_false_iff_not]
  rw [h1, h2]
  intro hcontra
  simp only [List.getLast?] at hcontra
  norm_num at hcontra

/-- C5 (amended): the scalar `TechnicalAnalysis.calculateEMA` is exactly the
claimed algorithm (SMA-seeded forward iteration, last price — 0 when empty —
as the short-series default), while the series-returning
`AdvancedTechnicalAnalysis.calculateEMA` instead returns `[]` on a short
series and otherwise the running EMA series seeded with the first price. -/
theorem calculateEMA_amended (prices : List ℚ) (period : ℕ) :
    TA.calculateEMA prices period = emaSpec prices period
    ∧ (prices.length < period → ATA.calculateEMA prices period = [])
    ∧ (∀ (p0 : ℚ) (rest : List ℚ), prices = p0 :: rest → period ≤ prices.length →
        ATA.calculateEMA prices period =
          List.scanl
            (fun ema p => p * (2 / ((period : ℚ) + 1)) + ema * (1 - 2 / ((period : ℚ) + 1)))
            p0 rest) := by
  refine ⟨?_, ?_, ?_⟩
  · unfold TA.calculateEMA emaSpec
    split_ifs with h
    · rfl
    · have hple : period ≤ prices.length := not_lt.mp h
      have hseed : TA.calculateSMA (prices.take period) period =
          (prices.take period).sum / (period : ℚ) := by
        unfold TA.calculateSMA
        have hlen : (prices.take period).length = period := by
          rw [List.length_take]
          omega
        rw [hlen]
        simp
      rw [hseed]
  · intro h
    unfold ATA.calculateEMA
    simp [h]
  · intro p0 rest hcons hlen
    unfold ATA.calculateEMA
    rw [if_neg (not_lt.mpr hlen), hcons]

/-- Witness for C5 (amended): concrete instances of all three parts. -/
theorem calculateEMA_amended_witness :
    TA.calculateEMA [1, 2, (3 : ℚ)] 2 = emaSpec [1, 2, (3 : ℚ)] 2
    ∧ ATA.calculateEMA [(5 : ℚ)] 2 = []
    ∧ ATA.calculateEMA [1, 2, (3 : ℚ)] 2 =
        List.scanl
          (fun ema p => p * (2 / (((2 : ℕ) : ℚ) + 1)) + ema * (1 - 2 / (((2 : ℕ) : ℚ) + 1)))
          1 [2, 3] := by
  refine ⟨(calculateEMA_amended [1, 2, (3 : ℚ)] 2).1, ?_, ?_⟩
  · exact (calculateEMA_amended [(5 : ℚ)] 2).2.1 (by norm_num)
  · exact (calculateEMA_amended [1, 2, (3 : ℚ)] 2).2.2 1 [2, 3] rfl (by norm_num)

namespace RE

/-- The indicator record of the simple engine (`calculateIndicators`);
`null`-able values are `Option`. Only the fields read by
`generateRecommendation` are modelled. -/
structure IndicatorsA where
  sma7 : Option ℚ
  sma14 : Option ℚ
  sma30 : Option ℚ
  rsi : Option ℚ
  trend : ARE.Trend
deriving DecidableEq, Repr

/-- The snapshot fields read by the simple engine. -/
structure CurrentDataA where
  price : ℚ
  change_24h : ℚ
deriving DecidableEq, Repr

/-- The record returned by the simple engine (the human-readable `reasons`
strings are not modelled). -/
structure RecommendationA where
  action : Action
  confidence : Confidence
  score : ℤ
deriving DecidableEq, Repr

/-- Contribution of one SMA comparison:
`if (sma && price > sma) score += 1; else if (sma) score -= 1;`
— JS truthiness makes `null` AND an SMA of exactly 0 contribute nothing. -/
def smaScore (price : ℚ) (sma : Option ℚ) : ℤ :=
  match sma with
  | none => 0
  | some m => if m = 0 then 0 else if price > m then 1 else -1

/-- Contribution of the RSI:
`if (indicators.rsi) { if (rsi < 30) score += 2; else if (rsi > 70) score -= 2 }`
— JS truthiness makes `null` AND an RSI of exactly 0 contribute nothing. -/
def rsiScore (rsi : Option ℚ) : ℤ :=
  match rsi with
  | none => 0
  | some r => if r = 0 then 0 else if r < 30 then 2 else if r > 70 then -2 else 0

/-- Contribution of the trend: +2 for BULLISH, −2 for BEARISH. -/
def trendScoreA (t : ARE.Trend) : ℤ :=
  if t = ARE.Trend.BULLISH then 2 else if t = ARE.Trend.BEARISH then -2 else 0

/-- Contribution of the 24h change: −1 above +5, +1 below −5. -/
def changeScore (ch : ℚ) : ℤ :=
  if ch > 5 then -1 else if ch < -5 then 1 else 0

/-- `RecommendationEngine.generateRecommendation(currentData, indicators)`:
signed score starting at 0, summing the five contributions, then mapped to
an action and a confidence. -/
def generateRecommendation (currentData : CurrentDataA) (ind : IndicatorsA) :
    RecommendationA :=
  let score := smaScore currentData.price ind.sma7 + smaScore currentData.price ind.sma14
    + rsiScore ind.rsi + trendScoreA ind.trend + changeScore currentData.change_24h
  let ac : Action × Confidence :=
    if score ≥ 3 then (Action.STRONG_BUY, Confidence.HIGH)
    else if score ≥ 1 then (Action.BUY, Confidence.MEDIUM)
    else if score ≤ -3 then (Action.STRONG_SELL, Confidence.HIGH)
    else if score ≤ -1 then (Action.SELL, Confidence.MEDIUM)
    else (Action.HOLD, Confidence.LOW)
  { action := ac.1, confidence := ac.2, score := score }

end RE

/-- Spec-side SMA contribution, written from the words of the claim: +1/−1
for the current price being above/below the (present) SMA. -/
def specSmaScore (price : ℚ) (sma : Option ℚ) : ℤ :=
  match sma with
  | none => 0
  | some m => if price > m then 1 else if price < m then -1 else 0

/-- Spec-side RSI contribution, written from the words of the claim: +2 when
RSI < 30 and −2 when RSI > 70. -/
def specRsiScore (rsi : Option ℚ) : ℤ :=
  match rsi with
  | none => 0
  | some r => if r < 30 then 2 else if r > 70 then -2 else 0

/-- Spec-side Variant A total, written from the words of the claim. -/
def specSimpleScore (cur : RE.CurrentDataA) (ind : RE.IndicatorsA) : ℤ :=
  specSmaScore cur.price ind.sma7 + specSmaScore cur.price ind.sma14
    + specRsiScore ind.rsi + RE.trendScoreA ind.trend + RE.changeScore cur.change_24h

/-- Spec-side Variant A action mapping: ≥3 → STRONG BUY (HIGH), ≥1 → BUY
(MEDIUM), ≤−3 → STRONG SELL (HIGH), ≤−1 → SELL (MEDIUM), else HOLD (LOW). -/
def specSimpleAction (s : ℤ) : Action × Confidence :=
  if s ≥ 3 then (Action.STRONG_BUY, Confidence.HIGH)
  else if s ≥ 1 then (Action.BUY, Confidence.MEDIUM)
  else if s ≤ -3 then (Action.STRONG_SELL, Confidence.HIGH)
  else if s ≤ -1 then (Action.SELL, Confidence.MEDIUM)
  else (Action.HOLD, Confidence.LOW)

/-- A snapshot for the C4 counterexample: price 1, no 24h move. -/
def cexCurrent : RE.CurrentDataA := { price := 1, change_24h := 0 }

/-- Indicators for the C4 counterexample: both SMAs above the price and an
RSI of exactly 0 (deep oversold — falsy in JS). -/
def cexIndicators : RE.IndicatorsA :=
  { sma7 := some 2, sma14 := some 2, sma30 := none, rsi := some 0
    trend := ARE.Trend.SIDEWAYS }

/-- C4 counterexample: with RSI exactly 0 (< 30) the claim's scoring demands
−1 −1 +2 = 0 hence HOLD, but the code's JS truthiness guard `if (rsi)` skips
the oversold bonus, giving −2 and SELL. -/
theorem claim_C4_counterexample :
    (RE.generateRecommendation cexCurrent cexIndicators).score = -2
    ∧ specSimpleScore cexCurrent cexIndicators = 0
    ∧ (RE.generateRecommendation cexCurrent cexIndicators).action = Action.SELL
    ∧ specSimpleAction (specSimpleScore cexCurrent cexIndicators) =
        (Action.HOLD, Confidence.LOW) := by
  refine ⟨?_, ?_, ?_, ?_⟩ <;> rfl

/-- C4 (amended): the simple scorer sums exactly the five contributions,
where each indicator contributes only when truthy in JS (present and
nonzero) — so an RSI of exactly 0 adds nothing, and a present nonzero SMA
scores +1 strictly above and −1 otherwise (ties count as below) — and the
resulting total maps to the claimed action table (≥3 → STRONG BUY/HIGH,
≥1 → BUY/MEDIUM, ≤−3 → STRONG SELL/HIGH, ≤−1 → SELL/MEDIUM, else
HOLD/LOW). On truthy inputs away from ties the contributions agree with
the original claim. -/
theorem generateRecommendation_amended (cur : RE.CurrentDataA) (ind : RE.IndicatorsA) :
    (RE.generateRecommendation cur ind).score =
      RE.smaScore cur.price ind.sma7 + RE.smaScore cur.price ind.sma14
        + RE.rsiScore ind.rsi + RE.trendScoreA ind.trend
        + RE.changeScore cur.change_24h
    ∧ ((RE.generateRecommendation cur ind).action,
        (RE.generateRecommendation cur ind).confidence) =
        specSimpleAction (RE.generateRecommendation cur ind).score
    ∧ (∀ r : ℚ, ind.rsi = some r → r ≠ 0 → RE.rsiScore ind.rsi = specRsiScore ind.rsi)
    ∧ (∀ m : ℚ, ind.sma7 = some m → m ≠ 0 → cur.price ≠ m →
        RE.smaScore cur.price ind.sma7 = specSmaScore cur.price ind.sma7)
    ∧ (∀ m : ℚ, ind.sma14 = some m → m ≠ 0 → cur.price ≠ m →
        RE.smaScore cur.price ind.sma14 = specSmaScore cur.price ind.sma14) := by
  refine ⟨rfl, ?_, ?_, ?_, ?_⟩
  · simp only [RE.generateRecommendation, specSimpleAction]
  · intro r hr hne
    rw [hr]
    unfold RE.rsiScore specRsiScore
    simp [hne]
  · intro m hm hne hpm
    rw [hm]
    unfold RE.smaScore specSmaScore
    rcases lt_trichotomy cur.price m with h | h | h
    · simp only [if_neg hne, if_neg (not_lt.mpr (le_of_lt h)), if_pos h]
    · exact absurd h hpm
    · simp only [if_neg hne, if_pos h]
  · intro m hm hne hpm
    rw [hm]
    unfold RE.smaScore specSmaScore
    rcases lt_trichotomy cur.price m with h | h | h
    · simp only [if_neg hne, if_neg (not_lt.mpr (le_of_lt h)), if_pos h]
    · exact absurd h hpm
    · simp only [if_neg hne, if_pos h]

namespace ARE

/-- A synthesized OHLCV point
(`{ timestamp, price, high, low, volume }` in
`generateEnhancedHistoricalData`). -/
structure PricePoint where
  timestamp : ℤ
  price : ℚ
  high : ℚ
  low : ℚ
  volume : ℚ
deriving DecidableEq, Repr

/-- One iteration of the synthesizer loop at countdown index `i`: random
trend and noise components move the running price, which is then clamped to
[0.1×cp, 3.0×cp]; `rng` is the stream of `Math.random()` draws and `r` the
index of the next draw (five draws per iteration). Returns the new running
price together with the generated point. -/
def synthPoint (cp vol dailyVol tDir tStr : ℚ) (now : ℤ) (rng : ℕ → ℚ)
    (r i : ℕ) (price : ℚ) : ℚ × PricePoint :=
  let trendComponent := tDir * tStr * (rng r * (1/2))
  let randomComponent := (rng (r+1) - 1/2) * dailyVol * 2
  let dailyChange := trendComponent + randomComponent
  let p1 := price * (1 + dailyChange)
  let p2 := max p1 (cp * (1/10))
  let p3 := min p2 (cp * 3)
  (p3,
    { timestamp := now - (i : ℤ) * 86400000
      price := p3
      high := p3 * (1 + rng (r+2) * (3/100))
      low := p3 * (1 - rng (r+3) * (3/100))
      volume := vol * (1/2 + rng (r+4)) })

/-- The synthesizer loop `for (let i = days; i >= 0; i--) { ...;
prices.unshift(point) }`: counts `i` down from `days` to 0, prepending each
point (so the accumulator ends ordered by increasing countdown index). -/
def synthLoop (cp vol dailyVol tDir tStr : ℚ) (now : ℤ) (rng : ℕ → ℚ) :
    ℕ → ℚ → ℕ → List PricePoint → List PricePoint
  | 0, price, r, acc => (synthPoint cp vol dailyVol tDir tStr now rng r 0 price).2 :: acc
  | Nat.succ k, price, r, acc =>
      let res := synthPoint cp vol dailyVol tDir tStr now rng r (k+1) price
      synthLoop cp vol dailyVol tDir tStr now rng k res.1 (r+5) (res.2 :: acc)

/-- `prices[prices.length - 1].price = currentPrice`: replace the price of
the last point. -/
def setLastPrice (l : List PricePoint) (cp : ℚ) : List PricePoint :=
  match l.getLast? with
  | none => l
  | some lastPt => l.dropLast ++ [{ lastPt with price := cp }]

/-- `AdvancedRecommendationEngine.generateEnhancedHistoricalData(currentData, days)`:
random walk of `days+1` clamped prices anchored on the current price, with
`dailyVolatility = |change_24h|/100 || 0.02`, trend direction the sign of
the 24h change, and trend strength capped at 0.03. -/
def generateEnhancedHistoricalData (currentData : CurrentData) (days : ℕ)
    (now : ℤ) (rng : ℕ → ℚ) : List PricePoint :=
  let currentPrice := currentData.price
  let dailyVolatility :=
    if |currentData.change_24h| / 100 = 0 then 1/50 else |currentData.change_24h| / 100
  let trendDirection : ℚ := if currentData.change_24h > 0 then 1 else -1
  let trendStrength := min (|currentData.change_24h| / 100) (3/100)
  let prices := synthLoop currentPrice currentData.volume_24h dailyVolatility
    trendDirection trendStrength now rng days currentPrice 0 []
  setLastPrice prices currentPrice

end ARE

lemma synthLoop_length (cp vol dailyVol tDir tStr : ℚ) (now : ℤ) (rng : ℕ → ℚ) :
    ∀ (i : ℕ) (price : ℚ) (r : ℕ) (acc : List ARE.PricePoint),
      (ARE.synthLoop cp vol dailyVol tDir tStr now rng i price r acc).length
        = i + 1 + acc.length := by
  intro i
  induction i with
  | zero => intro price r acc; simp [ARE.synthLoop]; omega
  | succ k ih =>
      intro price r acc
      rw [ARE.synthLoop, ih]
      simp
      omega

lemma synthPoint_price_mem {cp : ℚ} (hp : 0 < cp) (vol dailyVol tDir tStr : ℚ)
    (now : ℤ) (rng : ℕ → ℚ) (r i : ℕ) (price : ℚ) :
    cp * (1/10) ≤ (ARE.synthPoint cp vol dailyVol tDir tStr now rng r i price).2.price
    ∧ (ARE.synthPoint cp vol dailyVol tDir tStr now rng r i price).2.price ≤ cp * 3 := by
  unfold ARE.synthPoint
  dsimp only
  constructor
  · exact le_min (le_max_right _ _) (by nlinarith)
  · exact min_le_right _ _

lemma synthLoop_price_mem {cp : ℚ} (hp : 0 < cp) (vol dailyVol tDir tStr : ℚ)
    (now : ℤ) (rng : ℕ → ℚ) :
    ∀ (i : ℕ) (price : ℚ) (r : ℕ) (acc : List ARE.PricePoint),
      (∀ pt ∈ acc, cp * (1/10) ≤ pt.price ∧ pt.price ≤ cp * 3) →
      ∀ pt ∈ ARE.synthLoop cp vol dailyVol tDir tStr now rng i price r acc,
        cp * (1/10) ≤ pt.price ∧ pt.price ≤ cp * 3 := by
  intro i
  induction i with
  | zero =>
      intro price r acc hacc pt hpt
      rw [ARE.synthLoop] at hpt
      rcases List.mem_cons.mp hpt with h | h
      · rw [h]; exact synthPoint_price_mem hp vol dailyVol tDir tStr now rng r 0 price
      · exact hacc pt h
  | succ k ih =>
      intro price r acc hacc pt hpt
      rw [ARE.synthLoop] at hpt
      refine ih _ _ _ ?_ pt hpt
      intro q hq
      rcases List.mem_cons.mp hq with h | h
      · rw [h]; exact synthPoint_price_mem hp vol dailyVol tDir tStr now rng r (k+1) price
      · exact hacc q h

lemma setLastPrice_length (l : List ARE.PricePoint) (cp : ℚ) :
    (ARE.setLastPrice l cp).length = l.length := by
  unfold ARE.setLastPrice
  cases hl : l.getLast? with
  | none => rfl
  | some lastPt =>
      have hne : l ≠ [] := by
        intro h
        rw [h] at hl
        simp at hl
      simp only [List.length_append, List.length_dropLast, List.length_singleton]
      have := List.length_pos.mpr hne
      omega

lemma setLastPrice_getLast (l : List ARE.PricePoint) (cp : ℚ) (h : l ≠ []) :
    ((ARE.setLastPrice l cp).getLast?).map (fun pt => pt.price) = some cp := by
  unfold ARE.setLastPrice
  cases hl : l.getLast? with
  | none => exact absurd (List.getLast?_eq_none_iff.mp hl) h
  | some lastPt => simp

lemma setLastPrice_price_mem {cp : ℚ} (hp : 0 < cp) (l : List ARE.PricePoint)
    (hl : ∀ pt ∈ l, cp * (1/10) ≤ pt.price ∧ pt.price ≤ cp * 3) :
    ∀ pt ∈ ARE.setLastPrice l cp, cp * (1/10) ≤ pt.price ∧ pt.price ≤ cp * 3 := by
  unfold ARE.setLastPrice
  cases hlast : l.getLast? with
  | none => exact hl
  | some lastPt =>
      intro pt hpt
      rcases List.mem_append.mp hpt with h | h
      · exact hl pt ((List.dropLast_sublist l).mem h)
      · rw [List.mem_singleton.mp h]
        constructor
        · linarith
        · linarith

/-- C7: for every positive-price snapshot, every number of days and every
stream of random draws, the fallback synthesizer returns exactly `days+1`
points, the last point's price is exactly the snapshot's current price, and
every synthesized price lies within [0.1×price, 3.0×price]. -/
theorem generateEnhancedHistoricalData_spec (currentData : ARE.CurrentData)
    (days : ℕ) (now : ℤ) (rng : ℕ → ℚ) (hp : 0 < currentData.price) :
    (ARE.generateEnhancedHistoricalData currentData days now rng).length = days + 1
    ∧ ((ARE.generateEnhancedHistoricalData currentData days now rng).getLast?).map
        (fun pt => pt.price) = some currentData.price
    ∧ ∀ pt ∈ ARE.generateEnhancedHistoricalData currentData days now rng,
        currentData.price * (1/10) ≤ pt.price ∧ pt.price ≤ currentData.price * 3 := by
  unfold ARE.generateEnhancedHistoricalData
  set dailyVolatility :=
    if |currentData.change_24h| / 100 = 0 then (1/50 : ℚ)
    else |currentData.change_24h| / 100 with hdv
  set trendDirection : ℚ := if currentData.change_24h > 0 then 1 else -1 with htd
  set trendStrength := min (|currentData.change_24h| / 100) (3/100) with hts
  set l := ARE.synthLoop currentData.price currentData.volume_24h dailyVolatility
    trendDirection trendStrength now rng days currentData.price 0 [] with hldef
  have hlen : l.length = days + 1 := by
    rw [hldef, synthLoop_length]
    simp
  have hne : l ≠ [] := by
    intro h
    rw [h] at hlen
    simp at hlen
  have hmem : ∀ pt ∈ l, currentData.price * (1/10) ≤ pt.price
      ∧ pt.price ≤ currentData.price * 3 := by
    rw [hldef]
    exact synthLoop_price_mem hp _ _ _ _ now rng days currentData.price 0 []
      (by intro pt hpt; simp at hpt)
  refine ⟨?_, ?_, ?_⟩
  · rw [setLastPrice_length, hlen]
  · exact setLastPrice_getLast l currentData.price hne
  · exact setLastPrice_price_mem hp l hmem

/-- Witness for C7: the synthesizer at price 10, 1 day, constant draws 1/2
produces 2 points, ends on price 10, and stays within [1, 30]. -/
theorem generateEnhancedHistoricalData_spec_witness :
    (ARE.generateEnhancedHistoricalData sampleCurrent 1 0 (fun _ => 1/2)).length = 1 + 1
    ∧ ((ARE.generateEnhancedHistoricalData sampleCurrent 1 0 (fun _ => 1/2)).getLast?).map
        (fun pt => pt.price) = some sampleCurrent.price
    ∧ ∀ pt ∈ ARE.generateEnhancedHistoricalData sampleCurrent 1 0 (fun _ => 1/2),
        sampleCurrent.price * (1/10) ≤ pt.price ∧ pt.price ≤ sampleCurrent.price * 3 :=
  generateEnhancedHistoricalData_spec sampleCurrent 1 0 (fun _ => 1/2)
    (by norm_num [sampleCurrent])

end CryptoTracker
